import Mathlib

/-!
Verification of the tidymon evaluation engine and scan scheduler.

Shallow embedding of `src/rules.py`, `src/monitor.py` and `src/tray.py`:
pure functions are translated directly; filesystem and JSON state is
passed explicitly (a folder snapshot is the list of direct file entries
returned by `path.iterdir()` filtered by `is_file()`, a bookmark store is
either absent, malformed JSON, or a parsed document tree); Python time
values (`time.time()`, `st_mtime`) are carried as rationals; the unused
percentage, where CPython's binary64 arithmetic is observable in the rule
comparison, is modelled operation-by-operation with round-to-nearest-even
binary64 rounding over exact rationals; Python exceptions are modelled
with `Except`, and a call site with no `try/except` propagates the
error.
-/

namespace Tidymon

/-- One entry of `path.iterdir()` that satisfied `is_file()`:
`suffix` is Python's `Path.suffix` (empty string when the name has no
extension), `mtime` is `f.stat().st_mtime`. -/
structure FileEntry where
  suffix : String
  mtime : ℚ
deriving DecidableEq, Repr

/-- `rules.FolderReport` (src/rules.py lines 11-28). Counter fields are
list lengths, hence `Nat`; `score` is a Python `int`, kept as `Int` so the
severity mapping can be stated on the whole integer domain. -/
structure FolderReport where
  path : String
  total_files : Nat := 0
  extension_count : Nat := 0
  stale_file_count : Nat := 0
  score : Int := 0
  reasons : List String := []
deriving DecidableEq, Repr

/-- `FolderReport.level` (src/rules.py lines 20-28). -/
def FolderReport.level (r : FolderReport) : String :=
  if r.score ≥ 3 then "critical"
  else if r.score ≥ 2 then "warning"
  else if r.score ≥ 1 then "caution"
  else "clean"

/-- Condition of rule 1 in `evaluate_folder` (src/rules.py line 49):
`report.total_files > max_files`. -/
def folderRule1Fires (total_files : Nat) (max_files : Int) : Bool :=
  decide ((total_files : Int) > max_files)

/-- `len({f.suffix.lower() for f in files if f.suffix})`
(src/rules.py lines 54-55): number of distinct lowercased suffixes over
the files having a non-empty suffix. -/
def extensionCount (files : List FileEntry) : Nat :=
  (((files.filter (fun f => f.suffix != "")).map
      (fun f => f.suffix.toLower)).dedup).length

/-- Condition of rule 2 in `evaluate_folder` (src/rules.py line 56). -/
def folderRule2Fires (extension_count : Nat) (max_extensions : Int) : Bool :=
  decide ((extension_count : Int) > max_extensions)

/-- `len([f for f in files if f.stat().st_mtime < now - stale_days*86400])`
(src/rules.py lines 63-66), with `now` the single `time.time()` value
captured in the call. -/
def staleFileCount (files : List FileEntry) (now : ℚ) (stale_days : Int) : Nat :=
  (files.filter (fun f => decide (f.mtime < now - (stale_days : ℚ) * 86400))).length

/-- Condition of rule 3 in `evaluate_folder` (src/rules.py line 67). -/
def folderRule3Fires (stale_file_count : Nat) (max_stale_files : Int) : Bool :=
  decide ((stale_file_count : Int) > max_stale_files)

/-- `rules.evaluate_folder` (src/rules.py lines 31-74). The snapshot is
`none` when `path.exists()` is false, otherwise the list of direct file
entries. Sequential `score += 1` / `reasons.append` mutations are rendered
as the sum/concatenation over the three rule conditions, preserving rule
order. -/
def evaluate_folder (folder_path : String) (snapshot : Option (List FileEntry))
    (now : ℚ) (max_files : Int := 20) (max_extensions : Int := 8)
    (max_stale_files : Int := 10) (stale_days : Int := 7) : FolderReport :=
  match snapshot with
  | none => { path := folder_path }
  | some files =>
    let total_files := files.length
    let fires1 := folderRule1Fires total_files max_files
    let extension_count := extensionCount files
    let fires2 := folderRule2Fires extension_count max_extensions
    let stale_file_count := staleFileCount files now stale_days
    let fires3 := folderRule3Fires stale_file_count max_stale_files
    { path := folder_path
      total_files := total_files
      extension_count := extension_count
      stale_file_count := stale_file_count
      score := (if fires1 then 1 else 0) + (if fires2 then 1 else 0)
        + (if fires3 then 1 else 0)
      reasons :=
        (if fires1 then [s!"파일 {total_files}개 (기준: {max_files}개)"] else [])
        ++ (if fires2 then
              [s!"확장자 {extension_count}종류 (기준: {max_extensions}종류)"]
            else [])
        ++ (if fires3 then
              [s!"{stale_days}일 이상 방치 파일 {stale_file_count}개 (기준: {max_stale_files}개)"]
            else []) }

/-- `rules.BookmarkReport` (src/rules.py lines 81-88). -/
structure BookmarkReport where
  total_bookmarks : Nat := 0
  unsorted_count : Nat := 0
  duplicate_count : Nat := 0
  unused_count : Nat := 0
  score : Int := 0
  reasons : List String := []
deriving DecidableEq, Repr

/-- `BookmarkReport.level` (src/rules.py lines 90-98). -/
def BookmarkReport.level (r : BookmarkReport) : String :=
  if r.score ≥ 3 then "critical"
  else if r.score ≥ 2 then "warning"
  else if r.score ≥ 1 then "caution"
  else "clean"

/-- A node of the Chrome bookmark tree: `type` discriminator, the `url`
and `date_last_used` string fields when present, and the `children` list
(`node.get("children", [])` yields `[]` when the key is absent). -/
inductive BNode where
  | mk (type : String) (url : Option String) (date_last_used : Option String)
      (children : List BNode)

def BNode.type : BNode → String
  | .mk t _ _ _ => t

def BNode.url : BNode → Option String
  | .mk _ u _ _ => u

def BNode.date_last_used : BNode → Option String
  | .mk _ _ d _ => d

def BNode.children : BNode → List BNode
  | .mk _ _ _ c => c

/-- The parsed bookmark document: its `"roots"` mapping, as the ordered
association list of (name, node) pairs whose values are dicts (the
`isinstance(root_node, dict)` filter in src/rules.py line 128 keeps
exactly the node-valued entries). -/
structure BookmarkDoc where
  roots : List (String × BNode)

/-- State of the bookmark store file at `BOOKMARKS_PATH`: missing, present
but not parsable as JSON, or parsed into a document. -/
inductive BookmarkFile where
  | absent
  | malformed
  | parsed (doc : BookmarkDoc)

mutual
/-- `rules._collect_urls` (src/rules.py lines 101-106): depth-first
collection of every node whose `type` is `"url"`; the list-append
mutation is rendered as returning the collected sublist. -/
def collect_urls : BNode → List BNode
  | .mk t u d ch =>
    (if t == "url" then [BNode.mk t u d ch] else []) ++ collect_urls_list ch

/-- Collection over a list of sibling nodes, in order. -/
def collect_urls_list : List BNode → List BNode
  | [] => []
  | c :: cs => collect_urls c ++ collect_urls_list cs
end

/-- The flat `all_urls` universe (src/rules.py lines 126-129): collect
over every root container, in `roots` order. -/
def allUrls (data : BookmarkDoc) : List BNode :=
  collect_urls_list (data.roots.map Prod.snd)

/-- `data.get("roots", {}).get("bookmark_bar", {})` followed by
`.get("children", [])` (src/rules.py lines 136-137): children of the
`"bookmark_bar"` root, or `[]` when that key is missing. -/
def bookmarkBarChildren (data : BookmarkDoc) : List BNode :=
  match data.roots.find? (fun p => p.1 == "bookmark_bar") with
  | some p => p.2.children
  | none => []

/-- `len([c for c in bookmark_bar.get("children", []) if c.get("type") == "url"])`
(src/rules.py lines 137-138). -/
def unsortedCount (data : BookmarkDoc) : Nat :=
  ((bookmarkBarChildren data).filter (fun c => c.type == "url")).length

/-- Condition of bookmark rule 1 (src/rules.py line 139). -/
def bookmarkRule1Fires (unsorted_count : Nat) (max_unsorted : Int) : Bool :=
  decide ((unsorted_count : Int) > max_unsorted)

/-- `Counter(item["url"] for item in all_urls)` key access
(src/rules.py line 146): a node without a `"url"` key raises `KeyError`,
modelled as `Except.error`. -/
def getUrlStrings : List BNode → Except String (List String)
  | [] => .ok []
  | n :: ns =>
    match n.url with
    | none => .error "KeyError: url"
    | some u =>
      match getUrlStrings ns with
      | .error e => .error e
      | .ok us => .ok (u :: us)

/-- `len({url: cnt for url, cnt in Counter(urls).items() if cnt > 1})`
(src/rules.py lines 146-148): the number of distinct URL strings whose
occurrence count exceeds one. `Counter` keys are the distinct elements in
first-occurrence order, i.e. `urls.dedup`. -/
def duplicateCount (urls : List String) : Nat :=
  (urls.dedup.filter (fun u => decide (1 < urls.count u))).length

/-- Condition of bookmark rule 2 (src/rules.py line 149). -/
def bookmarkRule2Fires (duplicate_count : Nat) (max_duplicates : Int) : Bool :=
  decide ((duplicate_count : Int) > max_duplicates)

/-- `len([item for item in all_urls if item.get("date_last_used", "0") == "0"])`
(src/rules.py lines 156-157). -/
def unusedCount (all_urls : List BNode) : Nat :=
  (all_urls.filter (fun n => n.date_last_used.getD "0" == "0")).length

/-- Round-half-to-even of a rational to an integer. Used twice: as the
mantissa rounding inside `roundB64` (IEEE 754 round-to-nearest, ties to
even), and for the value displayed by the `:.0f` format in rule 3's
reason text (src/rules.py line 162), which is only string building, never
a comparison. -/
def roundHalfEven (q : ℚ) : Int :=
  let f := ⌊q⌋
  let r := q - (f : ℚ)
  if r < 1/2 then f
  else if 1/2 < r then f + 1
  else if f % 2 = 0 then f else f + 1

/-- The IEEE 754 binary64 value nearest to a rational (round to nearest,
ties to even): scale `q` into the mantissa range `[2^52, 2^53)` of its
binade `2^(Int.log 2 q)`, round half-to-even, and scale back. Valid for
the nonnegative normal range this program produces (ratios of bookmark
counts and small percentages — no overflow, subnormals or negatives
arise); `0` is exact. -/
def roundB64 (q : ℚ) : ℚ :=
  if q = 0 then 0
  else
    ((roundHalfEven (q * (2 : ℚ) ^ (52 - Int.log 2 q)) : ℚ)
      * (2 : ℚ) ^ (Int.log 2 q - 52))

/-- CPython float division: exact quotient rounded to the nearest
binary64 value. -/
def floatDiv (a b : ℚ) : ℚ :=
  roundB64 (a / b)

/-- CPython float multiplication: exact product rounded to the nearest
binary64 value. -/
def floatMul (a b : ℚ) : ℚ :=
  roundB64 (a * b)

/-- `(report.unused_count / report.total_bookmarks) * 100`
(src/rules.py line 158), as CPython computes it: the counts convert to
binary64 exactly (they are far below `2^53`), the division rounds once,
and the multiplication by the exact constant `100` rounds again. -/
def unusedPercent (unused_count total_bookmarks : Nat) : ℚ :=
  floatMul (floatDiv (unused_count : ℚ) (total_bookmarks : ℚ)) 100

/-- Condition of bookmark rule 3 (src/rules.py line 159): strict
greater-than on the computed (binary64) percentage, before any display
rounding; the integer threshold converts to binary64 exactly. -/
def bookmarkRule3Fires (unused_count total_bookmarks : Nat)
    (max_unused_percent : Int) : Bool :=
  decide (unusedPercent unused_count total_bookmarks > (max_unused_percent : ℚ))

/-- `rules.evaluate_bookmarks` (src/rules.py lines 109-165). The function
reads the store file: absence returns the zero report (line 119-120); a
store that `json.load` cannot parse raises `json.JSONDecodeError`, which
no caller in the repository catches, so it is an `Except.error` here
(lines 122-123); an empty collected universe returns the report before
any rule runs (lines 131-133); a URL node missing its `"url"` key raises
`KeyError` inside rule 2 (line 146). `bookmarkSuccessReport` is the
report assembled on the all-rules path (lines 135-165), with the
sequential `score += 1` / `reasons.append` mutations rendered as the
sum/concatenation over the three rule conditions in rule order, and
`urls` the list underlying `Counter(item["url"] for item in all_urls)`. -/
def bookmarkSuccessReport (data : BookmarkDoc) (urls : List String)
    (max_unsorted max_duplicates max_unused_percent : Int) : BookmarkReport :=
  let all_urls := allUrls data
  let total_bookmarks := all_urls.length
  let unsorted_count := unsortedCount data
  let fires1 := bookmarkRule1Fires unsorted_count max_unsorted
  let duplicate_count := duplicateCount urls
  let fires2 := bookmarkRule2Fires duplicate_count max_duplicates
  let unused_count := unusedCount all_urls
  let fires3 := bookmarkRule3Fires unused_count total_bookmarks max_unused_percent
  let pct := roundHalfEven (unusedPercent unused_count total_bookmarks)
  { total_bookmarks := total_bookmarks
    unsorted_count := unsorted_count
    duplicate_count := duplicate_count
    unused_count := unused_count
    score := (if fires1 then 1 else 0) + (if fires2 then 1 else 0)
      + (if fires3 then 1 else 0)
    reasons :=
      (if fires1 then
         [s!"북마크바 루트 URL {unsorted_count}개 (기준: {max_unsorted}개)"]
       else [])
      ++ (if fires2 then
            [s!"중복 URL {duplicate_count}개 (기준: {max_duplicates}개)"]
          else [])
      ++ (if fires3 then
            [s!"미사용 북마크 {pct}% (기준: {max_unused_percent}%)"]
          else []) }

def evaluate_bookmarks (file : BookmarkFile) (max_unsorted : Int := 10)
    (max_duplicates : Int := 5) (max_unused_percent : Int := 50) :
    Except String BookmarkReport :=
  match file with
  | .absent => .ok {}
  | .malformed => .error "json.JSONDecodeError"
  | .parsed data =>
    let all_urls := allUrls data
    let total_bookmarks := all_urls.length
    if total_bookmarks = 0 then .ok { total_bookmarks := total_bookmarks }
    else
      match getUrlStrings all_urls with
      | .error e => .error e
      | .ok urls =>
        .ok (bookmarkSuccessReport data urls max_unsorted max_duplicates
          max_unused_percent)

/-- One entry of the config's `folders` list; optional keys model the
`folder_cfg.get(key, default)` lookups in `TrayApp._run_scan`
(src/tray.py lines 141-148). -/
structure FolderCfg where
  path : String
  max_files : Option Int := none
  max_extensions : Option Int := none
  max_stale_files : Option Int := none
  stale_days : Option Int := none

/-- The config's `bookmarks` section; optional keys model
`bm_cfg.get(key, default)` (src/tray.py lines 158-164). -/
structure BookmarkCfg where
  enabled : Option Bool := none
  max_unsorted : Option Int := none
  max_duplicates : Option Int := none
  max_unused_percent : Option Int := none

/-- The loaded configuration document (src/monitor.py `load_config`);
`bookmarks = none` models a document without a `bookmarks` section. -/
structure Config where
  folders : List FolderCfg := []
  bookmarks : Option BookmarkCfg := none
  check_interval_minutes : Option Int := none

/-- `config.get("bookmarks", {})` (src/tray.py line 158,
src/monitor.py line 91). -/
def bmCfgOf (config : Config) : BookmarkCfg :=
  config.bookmarks.getD {}

/-- `bm_cfg.get("enabled", True)` (src/tray.py line 159,
src/monitor.py line 92). -/
def bookmarksEnabled (config : Config) : Bool :=
  (bmCfgOf config).enabled.getD true

/-- The filesystem/clock state one scan cycle observes: the direct file
entries of each folder path (`none` when the path does not exist), the
bookmark store file, and the captured `time.time()` value. -/
structure Env where
  folderContents : String → Option (List FileEntry)
  bookmarkFile : BookmarkFile
  now : ℚ

/-- `BOOKMARKS_PATH.exists()` (src/tray.py line 159): true whenever the
file is present, parsable or not. -/
def bookmarkStoreExists (env : Env) : Bool :=
  match env.bookmarkFile with
  | .absent => false
  | .malformed => true
  | .parsed _ => true

/-- `TrayApp._run_scan` (src/tray.py lines 136-171), with
`config = load_config()` passed in as its `Except` outcome: the body has
no `try/except`, so a configuration load failure or an exception from
`evaluate_bookmarks` propagates out of the call. On success, returns the
published folder report list and the optional bookmark report
(`self.bookmark_report` is set to `None` when the check is skipped).
Notification dispatch and icon redraw are external side effects and carry
no report state, so they are not modelled. -/
def run_scan (loadResult : Except String Config) (env : Env) :
    Except String (List FolderReport × Option BookmarkReport) :=
  match loadResult with
  | .error e => .error e
  | .ok config =>
    let reports := config.folders.map (fun fc =>
      evaluate_folder fc.path (env.folderContents fc.path) env.now
        (fc.max_files.getD 20) (fc.max_extensions.getD 8)
        (fc.max_stale_files.getD 10) (fc.stale_days.getD 7))
    let bm_cfg := bmCfgOf config
    if bookmarksEnabled config && bookmarkStoreExists env then
      match evaluate_bookmarks env.bookmarkFile (bm_cfg.max_unsorted.getD 10)
          (bm_cfg.max_duplicates.getD 5) (bm_cfg.max_unused_percent.getD 50) with
      | .error e => .error e
      | .ok r => .ok (reports, some r)
    else .ok (reports, none)

/-- An input arriving while the worker waits in `Idle`: the tray's
"scan now" action, the quit action, or the timer running out. -/
inductive Signal where
  | scanNow
  | quit
  | timeout
deriving DecidableEq, Repr

/-- The two `threading.Event` flags owned by `TrayApp`
(src/tray.py lines 130-131). -/
structure Events where
  stopEv : Bool := false
  scanEv : Bool := false
deriving DecidableEq, Repr

/-- Effect of a signal on the events: `_on_scan_now` sets `_scan_event`
(src/tray.py lines 202-203); `_on_quit` sets `_stop_event` and
`_scan_event` (src/tray.py lines 214-217); a timeout changes nothing. -/
def applySignal : Signal → Events → Events
  | .scanNow, s => { s with scanEv := true }
  | .quit, s => { s with stopEv := true, scanEv := true }
  | .timeout, s => s

/-- `self._scan_event.wait(timeout=interval); self._scan_event.clear()`
(src/tray.py lines 197-198): the wait returns early (first component
`true`) exactly when the scan event is set, and the event is cleared
afterwards. -/
def idleWait (sig : Signal) (s : Events) : Bool × Events :=
  let s2 := applySignal sig s
  (s2.scanEv, { s2 with scanEv := false })

/-- `TrayApp._monitor_loop` (src/tray.py lines 191-198), driven by a
finite observation trace: one configuration-load outcome per iteration
and one signal per idle wait (`Signal.timeout` when the trace runs dry;
an exhausted load trace ends the observation). Returns the number of
completed scan cycles, or the uncaught exception that terminated the
worker thread — the loop body has no `try/except`. -/
def monitorRun (env : Env) : Events → List (Except String Config) →
    List Signal → Except String Nat
  | _, [], _ => .ok 0
  | s, load :: loadsRest, sigs =>
    if s.stopEv then .ok 0
    else
      match run_scan load env with
      | .error e => .error e
      | .ok _ =>
        let sig := sigs.headD Signal.timeout
        let sigsRest := sigs.tail
        match monitorRun env (idleWait sig s).2 loadsRest sigsRest with
        | .error e => .error e
        | .ok n => .ok (n + 1)

/-- `tray.LEVEL_PRIORITY` (src/tray.py line 25); total function form,
defined only on the four level strings. -/
def LEVEL_PRIORITY (lv : String) : Int :=
  if lv = "clean" then 0
  else if lv = "caution" then 1
  else if lv = "warning" then 2
  else if lv = "critical" then 3
  else 0

/-- Number of folder rules whose predicate evaluates true on a snapshot:
zero when the path does not exist (no rule is evaluated), otherwise the
count of true conditions among the three rules. -/
def folderFiredCount (snapshot : Option (List FileEntry)) (now : ℚ)
    (mf me ms sd : Int) : Nat :=
  match snapshot with
  | none => 0
  | some files =>
    [folderRule1Fires files.length mf,
     folderRule2Fires (extensionCount files) me,
     folderRule3Fires (staleFileCount files now sd) ms].count true

/-- Number of bookmark rules whose predicate evaluates true in a call of
`evaluate_bookmarks`: zero when no rule runs (absent store, malformed
store, empty universe), otherwise the count of true conditions. The
`getUrlStrings` error arm is unreachable from a successful call. -/
def bookmarkFiredCount (file : BookmarkFile) (mu md mp : Int) : Nat :=
  match file with
  | .absent => 0
  | .malformed => 0
  | .parsed data =>
    let all_urls := allUrls data
    if all_urls.length = 0 then 0
    else
      match getUrlStrings all_urls with
      | .error _ => 0
      | .ok urls =>
        [bookmarkRule1Fires (unsortedCount data) mu,
         bookmarkRule2Fires (duplicateCount urls) md,
         bookmarkRule3Fires (unusedCount all_urls) all_urls.length mp].count true

/-- Three sequential `score += 1` increments guarded by independent
conditions amount to counting the true conditions. -/
lemma score_if_sum_eq_count (b1 b2 b3 : Bool) :
    ((if b1 then (1 : Int) else 0) + (if b2 then 1 else 0) + (if b3 then 1 else 0))
      = ([b1, b2, b3].count true : Int) := by
  cases b1 <;> cases b2 <;> cases b3 <;> simp [List.count]

/-- Three sequential conditional `reasons.append` calls leave one entry
per true condition. -/
lemma reasons_append_length (b1 b2 b3 : Bool) (s1 s2 s3 : String) :
    ((if b1 then [s1] else []) ++ (if b2 then [s2] else [])
      ++ (if b3 then [s3] else [])).length
      = [b1, b2, b3].count true := by
  cases b1 <;> cases b2 <;> cases b3 <;> simp [List.count]

/-- Shape of a successful `evaluate_bookmarks` call on a parsed store:
either the universe was empty and the zero report came back, or every
URL node had its `url` key and the full three-rule report came back. -/
lemma evaluate_bookmarks_parsed_ok {data : BookmarkDoc} {mu md mp : Int}
    {r : BookmarkReport}
    (h : evaluate_bookmarks (.parsed data) mu md mp = .ok r) :
    ((allUrls data).length = 0 ∧ r = {}) ∨
    ((allUrls data).length ≠ 0 ∧ ∃ urls, getUrlStrings (allUrls data) = .ok urls ∧
      r = bookmarkSuccessReport data urls mu md mp) := by
  simp only [evaluate_bookmarks] at h
  split at h
  · next h0 =>
    left
    cases h
    exact ⟨h0, by rw [h0]⟩
  · next h0 =>
    right
    refine ⟨h0, ?_⟩
    cases hu : getUrlStrings (allUrls data) with
    | error e => rw [hu] at h; exact absurd h (by simp)
    | ok urls =>
      rw [hu] at h
      cases h
      exact ⟨urls, rfl, rfl⟩

/-- C1: for every folder snapshot, the report's `score` equals the number
of the three folder rules whose predicate evaluated true in that call,
and `reasons.length` equals `score`; likewise for every bookmark report
actually produced by `evaluate_bookmarks`. -/
theorem score_reasons_invariant (p : String) (snapshot : Option (List FileEntry))
    (now : ℚ) (mf me ms sd : Int) (file : BookmarkFile) (mu md mp : Int)
    (r : BookmarkReport) (h : evaluate_bookmarks file mu md mp = .ok r) :
    (evaluate_folder p snapshot now mf me ms sd).score
      = (folderFiredCount snapshot now mf me ms sd : Int) ∧
    ((evaluate_folder p snapshot now mf me ms sd).reasons.length : Int)
      = (evaluate_folder p snapshot now mf me ms sd).score ∧
    r.score = (bookmarkFiredCount file mu md mp : Int) ∧
    (r.reasons.length : Int) = r.score := by
  have hbm : r.score = (bookmarkFiredCount file mu md mp : Int) ∧
      (r.reasons.length : Int) = r.score := by
    cases file with
    | absent =>
      cases h
      exact ⟨rfl, rfl⟩
    | malformed => exact absurd h (by simp [evaluate_bookmarks])
    | parsed data =>
      rcases evaluate_bookmarks_parsed_ok h with ⟨h0, rfl⟩ | ⟨h0, urls, hu, rfl⟩
      · constructor
        · simp [bookmarkFiredCount, h0]
        · rfl
      · have hcount : bookmarkFiredCount (.parsed data) mu md mp
            = [bookmarkRule1Fires (unsortedCount data) mu,
               bookmarkRule2Fires (duplicateCount urls) md,
               bookmarkRule3Fires (unusedCount (allUrls data)) (allUrls data).length mp
               ].count true := by
          simp only [bookmarkFiredCount, if_neg h0, hu]
        constructor
        · rw [hcount]
          exact score_if_sum_eq_count _ _ _
        · have hlen : (bookmarkSuccessReport data urls mu md mp).reasons.length
              = [bookmarkRule1Fires (unsortedCount data) mu,
                 bookmarkRule2Fires (duplicateCount urls) md,
                 bookmarkRule3Fires (unusedCount (allUrls data)) (allUrls data).length mp
                 ].count true := reasons_append_length _ _ _ _ _ _
          rw [hlen]
          exact (score_if_sum_eq_count _ _ _).symm
  refine ⟨?_, ?_, hbm.1, hbm.2⟩
  · cases snapshot with
    | none => rfl
    | some files =>
      exact score_if_sum_eq_count (folderRule1Fires files.length mf)
        (folderRule2Fires (extensionCount files) me)
        (folderRule3Fires (staleFileCount files now sd) ms)
  · cases snapshot with
    | none => rfl
    | some files =>
      have hlen : (evaluate_folder p (some files) now mf me ms sd).reasons.length
          = [folderRule1Fires files.length mf,
             folderRule2Fires (extensionCount files) me,
             folderRule3Fires (staleFileCount files now sd) ms].count true :=
        reasons_append_length _ _ _ _ _ _
      rw [hlen]
      exact (score_if_sum_eq_count _ _ _).symm

/-- Witness for C1 at a concrete input: one file with a stale `.txt`
entry against thresholds of zero fires all three folder rules, and the
absent bookmark store produces the zero report. -/
theorem score_reasons_invariant_witness :
    evaluate_bookmarks BookmarkFile.absent 10 5 50 = .ok {} ∧
    (evaluate_folder "d" (some [⟨".txt", 0⟩]) 1000000 0 0 0 7).score
      = (folderFiredCount (some [⟨".txt", 0⟩]) 1000000 0 0 0 7 : Int) ∧
    (({} : BookmarkReport).reasons.length : Int) = ({} : BookmarkReport).score := by
  refine ⟨rfl, ?_, ?_⟩
  · exact (score_reasons_invariant "d" (some [⟨".txt", 0⟩]) 1000000 0 0 0 7
      BookmarkFile.absent 10 5 50 {} rfl).1
  · exact (score_reasons_invariant "d" (some [⟨".txt", 0⟩]) 1000000 0 0 0 7
      BookmarkFile.absent 10 5 50 {} rfl).2.2.2

/-- C2: the level of a report is a total, deterministic, monotone step
function of the integer score — `critical` for every score at least 3,
`warning` at 2, `caution` at 1, `clean` at 0 — monotone with respect to
the `LEVEL_PRIORITY` ordinal, and computed identically by
`FolderReport.level` and `BookmarkReport.level`. -/
theorem level_step_function (fr fr2 : FolderReport) (br : BookmarkReport) :
    (3 ≤ fr.score → fr.level = "critical") ∧
    (fr.score = 2 → fr.level = "warning") ∧
    (fr.score = 1 → fr.level = "caution") ∧
    (fr.score = 0 → fr.level = "clean") ∧
    (fr.score ≤ fr2.score → LEVEL_PRIORITY fr.level ≤ LEVEL_PRIORITY fr2.level) ∧
    (fr.score = br.score → fr.level = br.level) := by
  refine ⟨?_, ?_, ?_, ?_, ?_, ?_⟩
  · intro h
    simp only [FolderReport.level]
    rw [if_pos (show fr.score ≥ 3 by omega)]
  · intro h
    simp only [FolderReport.level]
    rw [if_neg (show ¬fr.score ≥ 3 by omega), if_pos (show fr.score ≥ 2 by omega)]
  · intro h
    simp only [FolderReport.level]
    rw [if_neg (show ¬fr.score ≥ 3 by omega), if_neg (show ¬fr.score ≥ 2 by omega),
      if_pos (show fr.score ≥ 1 by omega)]
  · intro h
    simp only [FolderReport.level]
    rw [if_neg (show ¬fr.score ≥ 3 by omega), if_neg (show ¬fr.score ≥ 2 by omega),
      if_neg (show ¬fr.score ≥ 1 by omega)]
  · intro h
    simp only [FolderReport.level]
    split_ifs <;> first | decide | (exfalso; omega)
  · intro h
    simp only [FolderReport.level, BookmarkReport.level, h]

/-- Witness for C2: a report with score 5 is `critical`. -/
theorem level_step_function_witness :
    (3 : Int) ≤ ({ path := "p", score := 5 } : FolderReport).score ∧
    ({ path := "p", score := 5 } : FolderReport).level = "critical" :=
  ⟨by decide,
   (level_step_function { path := "p", score := 5 } { path := "p", score := 5 }
     {}).1 (by decide)⟩

/-- C5: a parsed bookmark store whose collected URL universe is empty
yields the unmodified zero report for every threshold triple: score 0,
no reasons, level clean; no rule (in particular the unused-percentage
division) is ever evaluated on the empty universe. -/
theorem empty_universe_zero_report (data : BookmarkDoc) (mu md mp : Int)
    (h : allUrls data = []) :
    evaluate_bookmarks (.parsed data) mu md mp = .ok {} ∧
    ({} : BookmarkReport).total_bookmarks = 0 ∧
    ({} : BookmarkReport).score = 0 ∧
    ({} : BookmarkReport).reasons = [] ∧
    ({} : BookmarkReport).level = "clean" := by
  refine ⟨?_, rfl, rfl, rfl, rfl⟩
  simp [evaluate_bookmarks, h]

/-- A bookmark document with no roots at all: its universe is empty. -/
def emptyDoc : BookmarkDoc := ⟨[]⟩

/-- Witness for C5 on the concrete empty document. -/
theorem empty_universe_zero_report_witness :
    allUrls emptyDoc = [] ∧
    evaluate_bookmarks (.parsed emptyDoc) 10 5 50 = .ok {} :=
  ⟨rfl, (empty_universe_zero_report emptyDoc 10 5 50 rfl).1⟩

/-- C6: a non-existent folder path produces the zero-valued clean report
(no error), an absent bookmark store produces the zero bookmark report,
and a successful scan cycle evaluates every configured folder — one
report per target, so absence of one target never stops the others. -/
theorem absent_path_clean (p : String) (now : ℚ) (mf me ms sd mu md mp : Int)
    (cfg : Config) (env : Env) (out : List FolderReport × Option BookmarkReport)
    (hrun : run_scan (.ok cfg) env = .ok out) :
    evaluate_folder p none now mf me ms sd = { path := p } ∧
    ({ path := p } : FolderReport).total_files = 0 ∧
    ({ path := p } : FolderReport).extension_count = 0 ∧
    ({ path := p } : FolderReport).stale_file_count = 0 ∧
    ({ path := p } : FolderReport).score = 0 ∧
    ({ path := p } : FolderReport).reasons = [] ∧
    ({ path := p } : FolderReport).level = "clean" ∧
    evaluate_bookmarks .absent mu md mp = .ok {} ∧
    out.1.length = cfg.folders.length := by
  refine ⟨rfl, rfl, rfl, rfl, rfl, rfl, rfl, rfl, ?_⟩
  simp only [run_scan] at hrun
  split at hrun
  · split at hrun
    · exact absurd hrun (by simp)
    · cases hrun; simp
  · cases hrun; simp

/-- Witness for C6: a config with one folder whose path does not exist in
the environment still yields a one-report cycle. -/
theorem absent_path_clean_witness :
    run_scan (.ok { folders := [{ path := "gone" }] })
        ⟨fun _ => none, .absent, 0⟩
      = .ok ([{ path := "gone" }], none) ∧
    ([({ path := "gone" } : FolderReport)]).length
      = ({ folders := [{ path := "gone" }] } : Config).folders.length :=
  ⟨rfl, (absent_path_clean "gone" 0 20 8 10 7 10 5 50
      { folders := [{ path := "gone" }] } ⟨fun _ => none, .absent, 0⟩
      ([{ path := "gone" }], none) rfl).2.2.2.2.2.2.2.2⟩

/-- The spec's formulation of the duplicate rule's counter: the number of
distinct URL strings that occur at least twice in the collected list. -/
def specDuplicateGroupCount (urls : List String) : Nat :=
  (urls.toFinset.filter (fun u => 2 ≤ urls.count u)).card

/-- The implementation's duplicate counter agrees with the spec's
distinct-groups formulation. -/
lemma duplicateCount_eq_spec (l : List String) :
    duplicateCount l = specDuplicateGroupCount l := by
  unfold duplicateCount specDuplicateGroupCount
  have hnd : (l.dedup.filter (fun u => decide (1 < l.count u))).Nodup :=
    l.nodup_dedup.filter _
  have htf : (l.dedup.filter (fun u => decide (1 < l.count u))).toFinset
      = l.toFinset.filter (fun u => 2 ≤ l.count u) := by
    ext a
    simp only [List.mem_toFinset, List.mem_filter, List.mem_dedup, Finset.mem_filter,
      decide_eq_true_eq]
    exact and_congr_right fun _ => by omega
  calc (l.dedup.filter (fun u => decide (1 < l.count u))).length
      = (l.dedup.filter (fun u => decide (1 < l.count u))).toFinset.card := by
        rw [List.card_toFinset, hnd.dedup]
    _ = (l.toFinset.filter (fun u => 2 ≤ l.count u)).card := by rw [htf]

/-- C7: `duplicate_count` is the number of distinct URL strings appearing
two or more times (count of duplicate groups, not total duplicate
occurrences), and rule 2 fires exactly when that count strictly exceeds
`max_duplicates`; the field stored in a produced report is this counter
over the collected URL list. -/
theorem duplicate_group_count (urls : List String) (data : BookmarkDoc)
    (mu md mp : Int) (us : List String) (r : BookmarkReport)
    (hus : getUrlStrings (allUrls data) = .ok us)
    (hne : (allUrls data).length ≠ 0)
    (h : evaluate_bookmarks (.parsed data) mu md mp = .ok r) :
    duplicateCount urls = specDuplicateGroupCount urls ∧
    (bookmarkRule2Fires (duplicateCount urls) md = true ↔
      (specDuplicateGroupCount urls : Int) > md) ∧
    r.duplicate_count = specDuplicateGroupCount us := by
  refine ⟨duplicateCount_eq_spec urls, ?_, ?_⟩
  · rw [bookmarkRule2Fires, decide_eq_true_eq, duplicateCount_eq_spec]
  · rcases evaluate_bookmarks_parsed_ok h with ⟨h0, rfl⟩ | ⟨h0, urls2, hu2, rfl⟩
    · exact absurd h0 hne
    · rw [hus] at hu2
      cases hu2
      exact duplicateCount_eq_spec us

/-- A store whose bookmark bar holds the URLs `"a"`, `"a"`, `"b"`. -/
def dupDoc : BookmarkDoc :=
  ⟨[("bookmark_bar",
     BNode.mk "folder" none none
       [BNode.mk "url" (some "a") none [],
        BNode.mk "url" (some "a") none [],
        BNode.mk "url" (some "b") none []])]⟩

/-- Report for `dupDoc` with thresholds (10, 0, 50). -/
def dupReport : BookmarkReport :=
  bookmarkSuccessReport dupDoc ["a", "a", "b"] 10 0 50

/-- Witness for C7: the list with `"a"` twice and `"b"` once has one
duplicate group, and with `max_duplicates = 0` rule 2 fires. -/
theorem duplicate_group_count_witness :
    getUrlStrings (allUrls dupDoc) = .ok ["a", "a", "b"] ∧
    (allUrls dupDoc).length ≠ 0 ∧
    evaluate_bookmarks (.parsed dupDoc) 10 0 50 = .ok dupReport ∧
    (duplicateCount ["a", "a", "b"] = specDuplicateGroupCount ["a", "a", "b"] ∧
     (bookmarkRule2Fires (duplicateCount ["a", "a", "b"]) 0 = true ↔
       (specDuplicateGroupCount ["a", "a", "b"] : Int) > 0) ∧
     dupReport.duplicate_count = specDuplicateGroupCount ["a", "a", "b"]) := by
  refine ⟨rfl, by decide, rfl, ?_⟩
  exact duplicate_group_count ["a", "a", "b"] dupDoc 10 0 50 ["a", "a", "b"]
    dupReport rfl (by decide) rfl

/-- The spec's notion of an unused bookmark: the last-used timestamp
field is absent or the string `"0"`. -/
def specUnused (n : BNode) : Prop :=
  n.date_last_used = none ∨ n.date_last_used = some "0"

instance (n : BNode) : Decidable (specUnused n) := by
  unfold specUnused
  infer_instance

/-- The implementation's unused counter agrees with the spec's
absent-or-zero characterisation. -/
lemma unusedCount_eq_spec (l : List BNode) :
    unusedCount l = (l.filter (fun n => decide (specUnused n))).length := by
  unfold unusedCount
  congr 1
  apply List.filter_congr
  intro n _
  cases hd : n.date_last_used with
  | none => simp [specUnused, hd]
  | some s =>
    by_cases hs : s = "0" <;> simp [specUnused, hd, hs]

/-- Rule 3's firing condition is the strict comparison of the computed
binary64 percentage against the threshold, before any display rounding. -/
lemma rule3_float_iff (u t : Nat) (mp : Int) :
    bookmarkRule3Fires u t mp = true ↔ (mp : ℚ) < unusedPercent u t := by
  unfold bookmarkRule3Fires
  rw [decide_eq_true_eq, gt_iff_lt]

/-- Binary64 evaluation of `7 / 100`: the nearest double to `0.07` is
`5044031582654956 * 2 ^ -56`, slightly above the exact quotient. -/
lemma roundB64_seven_hundredths :
    roundB64 ((7 : ℚ) / 100) = 5044031582654956 / 72057594037927936 := by
  unfold roundB64
  rw [if_neg (by norm_num)]
  rw [show Int.log 2 ((7 : ℚ) / 100) = -4 by
    rw [Int.log_of_right_le_one 2 (by norm_num)]
    rw [show ⌈((7 : ℚ) / 100)⁻¹⌉₊ = 15 by
      rw [Nat.ceil_eq_iff (by norm_num)]
      constructor <;> norm_num]
    rw [show Nat.clog 2 15 = 4 by
      rw [Nat.clog_of_two_le (by norm_num) (by norm_num),
          Nat.clog_of_two_le (by norm_num) (by norm_num),
          Nat.clog_of_two_le (by norm_num) (by norm_num),
          Nat.clog_of_two_le (by norm_num) (by norm_num)]
      norm_num]
    norm_num]
  rw [show ((7 : ℚ) / 100) * (2 : ℚ) ^ ((52 : ℤ) - (-4))
      = 504403158265495552 / 100 by norm_num]
  rw [show roundHalfEven ((504403158265495552 : ℚ) / 100)
      = 5044031582654956 by
    unfold roundHalfEven
    rw [show ⌊(504403158265495552 : ℚ) / 100⌋ = 5044031582654955 by
      rw [Int.floor_eq_iff]
      norm_num]
    rw [if_neg (by norm_num), if_pos (by norm_num)]
    norm_num]
  norm_num

/-- Binary64 evaluation of the follow-up product with `100`: the exact
product exceeds `7` by `48 * 2 ^ -56` and rounds to
`7881299347898369 * 2 ^ -50`, strictly above `7` (CPython prints it as
`7.000000000000001`). -/
lemma roundB64_seven_hundredths_times_hundred :
    roundB64 ((5044031582654956 / 72057594037927936 : ℚ) * 100)
      = 7881299347898369 / 1125899906842624 := by
  unfold roundB64
  rw [if_neg (by norm_num)]
  rw [show ((5044031582654956 / 72057594037927936 : ℚ) * 100)
      = 504403158265495600 / 72057594037927936 by norm_num]
  rw [show Int.log 2 ((504403158265495600 : ℚ) / 72057594037927936) = 2 by
    rw [Int.log_of_one_le_right 2 (by norm_num)]
    rw [show ⌊(504403158265495600 : ℚ) / 72057594037927936⌋₊ = 7 by
      rw [Nat.floor_eq_iff (by norm_num)]
      constructor <;> norm_num]
    rw [show Nat.log 2 7 = 2 from
      Nat.log_eq_of_pow_le_of_lt_pow (by norm_num) (by norm_num)]
    norm_num]
  rw [show ((504403158265495600 : ℚ) / 72057594037927936) * (2 : ℚ) ^ ((52 : ℤ) - 2)
      = 504403158265495600 / 64 by norm_num]
  rw [show roundHalfEven ((504403158265495600 : ℚ) / 64)
      = 7881299347898369 by
    unfold roundHalfEven
    rw [show ⌊(504403158265495600 : ℚ) / 64⌋ = 7881299347898368 by
      rw [Int.floor_eq_iff]
      norm_num]
    rw [if_neg (by norm_num), if_pos (by norm_num)]
    norm_num]
  norm_num

/-- The percentage the program computes for 7 unused of 100 bookmarks. -/
lemma unusedPercent_seven_of_hundred :
    unusedPercent 7 100 = 7881299347898369 / 1125899906842624 := by
  have hcast : unusedPercent 7 100
      = roundB64 (roundB64 ((7 : ℚ) / 100) * 100) := by
    unfold unusedPercent floatMul floatDiv
    norm_num
  rw [hcast, roundB64_seven_hundredths, roundB64_seven_hundredths_times_hundred]

/-- C8 counterexample: at 7 unused bookmarks out of 100 with
`max_unused_percent = 7`, the program's rule 3 fires — CPython evaluates
`7 / 100 * 100` to `7.000000000000001` — although the exact unrounded
value of `unused_count / total_bookmarks * 100` equals `7` and is not
strictly greater than the threshold, so firing is not equivalent to the
exact comparison. -/
theorem unused_exact_counterexample :
    bookmarkRule3Fires 7 100 7 = true ∧
    ¬(((7 : ℚ) / (100 : ℚ)) * 100 > ((7 : Int) : ℚ)) := by
  constructor
  · rw [rule3_float_iff, unusedPercent_seven_of_hundred]
    norm_num
  · norm_num

/-- C8 (amended): in every produced report over a non-empty universe, a
bookmark is counted as unused exactly when its `date_last_used` field is
absent or `"0"`, and the unused rule's contribution to the score is
governed by the binary64-computed value of
`unused_count / total_bookmarks * 100` compared strictly against
`max_unused_percent`; the half-even integer rounding for the reason text
never enters the comparison (though binary64 rounding can make the
comparison differ from the exact rational value). -/
theorem unused_float_comparison (data : BookmarkDoc) (mu md mp : Int)
    (us : List String) (r : BookmarkReport)
    (hus : getUrlStrings (allUrls data) = .ok us)
    (hne : (allUrls data).length ≠ 0)
    (h : evaluate_bookmarks (.parsed data) mu md mp = .ok r) :
    r.unused_count
      = ((allUrls data).filter (fun n => decide (specUnused n))).length ∧
    (bookmarkRule3Fires r.unused_count r.total_bookmarks mp = true ↔
      (mp : ℚ) < unusedPercent r.unused_count r.total_bookmarks) ∧
    r.score = (if bookmarkRule1Fires (unsortedCount data) mu then 1 else 0)
      + (if bookmarkRule2Fires (duplicateCount us) md then 1 else 0)
      + (if (mp : ℚ) < unusedPercent r.unused_count r.total_bookmarks
         then 1 else 0) := by
  rcases evaluate_bookmarks_parsed_ok h with ⟨h0, rfl⟩ | ⟨h0, urls2, hu2, rfl⟩
  · exact absurd h0 hne
  · rw [hus] at hu2
    cases hu2
    have htotal : (bookmarkSuccessReport data us mu md mp).total_bookmarks
        = (allUrls data).length := rfl
    have hunused : (bookmarkSuccessReport data us mu md mp).unused_count
        = unusedCount (allUrls data) := rfl
    refine ⟨?_, ?_, ?_⟩
    · rw [hunused]
      exact unusedCount_eq_spec (allUrls data)
    · rw [htotal, hunused]
      exact rule3_float_iff _ _ _
    · rw [htotal, hunused]
      have h3 : (if bookmarkRule3Fires (unusedCount (allUrls data))
            (allUrls data).length mp then (1 : Int) else 0)
          = (if (mp : ℚ)
              < unusedPercent (unusedCount (allUrls data)) (allUrls data).length
             then 1 else 0) := by
        by_cases hP : (mp : ℚ)
            < unusedPercent (unusedCount (allUrls data)) (allUrls data).length
        · rw [if_pos hP, if_pos ((rule3_float_iff _ _ _).mpr hP)]
        · rw [if_neg hP, if_neg (fun hf => hP ((rule3_float_iff _ _ _).mp hf))]
      rw [← h3]
      rfl

/-- Witness for C8 on the concrete three-bookmark store `dupDoc`, whose
bookmarks all lack a `date_last_used` field. -/
theorem unused_float_comparison_witness :
    getUrlStrings (allUrls dupDoc) = .ok ["a", "a", "b"] ∧
    (allUrls dupDoc).length ≠ 0 ∧
    evaluate_bookmarks (.parsed dupDoc) 10 0 50 = .ok dupReport ∧
    dupReport.unused_count
      = ((allUrls dupDoc).filter (fun n => decide (specUnused n))).length := by
  refine ⟨rfl, by decide, rfl, ?_⟩
  exact (unused_float_comparison dupDoc 10 0 50 ["a", "a", "b"] dupReport
    rfl (by decide) rfl).1

/-- A configuration document with no folders and no `bookmarks` section. -/
def cfgEmpty : Config := {}

/-- An environment whose bookmark store file exists but is not parsable
as JSON (for example, a file containing only `{`). -/
def envMalformed : Env := ⟨fun _ => none, .malformed, 0⟩

/-- An environment with no folders and no bookmark store file. -/
def envAbsent : Env := ⟨fun _ => none, .absent, 0⟩

/-- C3 (refuting the claim on the code): when the bookmark store exists
but holds unparsable JSON, `json.load` raises inside `evaluate_bookmarks`
(src/rules.py lines 122-123) and neither `TrayApp._run_scan` nor
`TrayApp._monitor_loop` catches it (src/tray.py lines 136-171, 191-198),
so the exception propagates and the worker thread dies: the cycle does
not end with the bookmark report merely omitted. -/
theorem malformed_bookmarks_crash :
    evaluate_bookmarks .malformed 10 5 50 = .error "json.JSONDecodeError" ∧
    run_scan (.ok cfgEmpty) envMalformed = .error "json.JSONDecodeError" ∧
    monitorRun envMalformed {} [.ok cfgEmpty] [] = .error "json.JSONDecodeError" :=
  ⟨rfl, rfl, rfl⟩

/-- C4 (refuting the claim on the code): a configuration load failure
(`load_config` raising in src/monitor.py lines 59-64) propagates through
`TrayApp._run_scan` (src/tray.py line 138) and `_monitor_loop`, which
have no `try/except`: the worker thread dies on the failing cycle and the
next tick — whose load would have succeeded — never runs, so there is no
retry. The last conjunct shows the same two-tick trace completing when
both loads succeed. -/
theorem config_failure_crash :
    run_scan (.error "FileNotFoundError: config.yaml") envAbsent
      = .error "FileNotFoundError: config.yaml" ∧
    monitorRun envAbsent {} [.error "FileNotFoundError: config.yaml", .ok cfgEmpty]
        [Signal.timeout]
      = .error "FileNotFoundError: config.yaml" ∧
    monitorRun envAbsent {} [.ok cfgEmpty, .ok cfgEmpty] [Signal.timeout]
      = .ok 2 :=
  ⟨rfl, rfl, rfl⟩

/-- C9: in the monitor loop, a manual wake in `Idle` releases the wait
before the timer runs out and the next cycle starts immediately; a stop
signal in `Idle` releases the wait and the worker exits with no further
cycle; and the first cycle always runs before the first wait. -/
theorem scheduler_wake_stop (env : Env) (cfg : Config)
    (loads : List (Except String Config)) (sigs : List Signal) (s : Events)
    (out : List FolderReport × Option BookmarkReport)
    (hok : run_scan (.ok cfg) env = .ok out) :
    (idleWait .scanNow s).1 = true ∧
    (idleWait .quit s).1 = true ∧
    monitorRun env {} (.ok cfg :: loads) (.scanNow :: sigs)
      = (monitorRun env {} loads sigs).map (· + 1) ∧
    monitorRun env {} (.ok cfg :: loads) (.quit :: sigs) = .ok 1 ∧
    (∀ n, monitorRun env {} (.ok cfg :: loads) sigs = .ok n → 1 ≤ n) := by
  refine ⟨rfl, rfl, ?_, ?_, ?_⟩
  · simp only [monitorRun, hok]
    cases hmr : monitorRun env {} loads sigs with
    | error e => simp [idleWait, applySignal, Except.map, hmr]
    | ok n => simp [idleWait, applySignal, Except.map, hmr]
  · simp only [monitorRun, hok]
    cases loads with
    | nil => simp [idleWait, applySignal, monitorRun]
    | cons l ls => simp [idleWait, applySignal, monitorRun]
  · intro n hn
    simp only [monitorRun, hok] at hn
    rcases hmr : monitorRun env
        (idleWait (sigs.head?.getD Signal.timeout) {}).2 loads sigs.tail
      with e | m
    · simp [hmr] at hn
    · simp [hmr] at hn
      omega

/-- Witness for C9: one successful load followed by a quit signal gives
exactly one cycle. -/
theorem scheduler_wake_stop_witness :
    run_scan (.ok cfgEmpty) envAbsent = .ok ([], none) ∧
    monitorRun envAbsent {} [.ok cfgEmpty] [Signal.quit] = .ok 1 :=
  ⟨rfl, (scheduler_wake_stop envAbsent cfgEmpty [] [] {} ([], none)
    rfl).2.2.2.1⟩

/-- C10: a configuration without a `bookmarks` section, or whose
`bookmarks` section has no `enabled` key, leaves the bookmark check
enabled; it is disabled exactly when the configuration sets
`enabled: false`; and whenever the check is enabled and the store exists,
a completed cycle carries a bookmark report. -/
theorem bookmarks_enabled_default (cfg : Config) (bm : BookmarkCfg) (env : Env) :
    (cfg.bookmarks = none → bookmarksEnabled cfg = true) ∧
    (cfg.bookmarks = some bm → bm.enabled = none → bookmarksEnabled cfg = true) ∧
    (bookmarksEnabled cfg = false ↔
      ∃ b, cfg.bookmarks = some b ∧ b.enabled = some false) ∧
    (bookmarksEnabled cfg = true → bookmarkStoreExists env = true →
      ∀ out, run_scan (.ok cfg) env = .ok out → out.2.isSome = true) := by
  refine ⟨?_, ?_, ?_, ?_⟩
  · intro h
    simp [bookmarksEnabled, bmCfgOf, h]
  · intro h1 h2
    simp [bookmarksEnabled, bmCfgOf, h1, h2]
  · unfold bookmarksEnabled bmCfgOf
    cases hb : cfg.bookmarks with
    | none => simp
    | some b =>
      cases he : b.enabled with
      | none => simp [he]
      | some v => cases v <;> simp [he]
  · intro h1 h2 out hout
    simp only [run_scan, h1, h2, Bool.and_self, if_true] at hout
    split at hout
    · exact absurd hout (by simp)
    · cases hout
      rfl

/-- Witness for C10: the empty configuration (no `bookmarks` section)
leaves the check enabled. -/
theorem bookmarks_enabled_default_witness :
    cfgEmpty.bookmarks = none ∧ bookmarksEnabled cfgEmpty = true :=
  ⟨rfl, (bookmarks_enabled_default cfgEmpty {} envAbsent).1 rfl⟩

end Tidymon
